import Mathlib

/-!
# Verification of `lan-mouse` (`src/bin/server.rs`)

Shallow embedding of the pointer-capture server. The program connects to a
Wayland compositor, binds globals, creates one surface, locks the pointer on
enter, relays relative-motion samples as 20-byte UDP datagrams, and releases
the lock on the ESC key.

Modelling conventions:
* Rust `u32`/`u64` values are `Nat` with explicit `% 2 ^ 32` / bounds where
  the source truncates (`as u32`).
* `f64` values are carried as their 64-bit IEEE-754 bit patterns (`Nat < 2 ^ 64`):
  the program never performs floating-point arithmetic on them, it only
  byte-serializes them (`f64::to_ne_bytes`), which is the identity on bits.
* Native-endian byte order is little-endian (the x86-64 / aarch64 targets).
* Rust panics (`Option::unwrap` on `None`, `Result::unwrap` on `Err`) are the
  `Outcome.panicked` value; wayland requests and UDP sends are recorded as an
  explicit effect trace.
-/

namespace LanMouse

/-- Result of running a piece of Rust code that may panic
(`unwrap` on `None`/`Err` aborts the process). -/
inductive Outcome (α : Type) where
  | ok (a : α)
  | panicked
deriving DecidableEq, Repr

/-- `u32::to_ne_bytes` (native = little endian): 4 bytes, least significant first. -/
def toNeBytes32 (n : Nat) : List Nat :=
  [n % 256, n / 256 % 256, n / 256 ^ 2 % 256, n / 256 ^ 3 % 256]

/-- `u64::to_ne_bytes` / `f64::to_ne_bytes` on the bit pattern
(native = little endian): 8 bytes, least significant first. -/
def toNeBytes64 (n : Nat) : List Nat :=
  [n % 256, n / 256 % 256, n / 256 ^ 2 % 256, n / 256 ^ 3 % 256,
   n / 256 ^ 4 % 256, n / 256 ^ 5 % 256, n / 256 ^ 6 % 256, n / 256 ^ 7 % 256]

/-- Recombine little-endian bytes into a number (`u32::from_ne_bytes` /
`u64::from_ne_bytes` on a byte slice). -/
def fromNeBytesLE : List Nat → Nat
  | [] => 0
  | b :: bs => b + 256 * fromNeBytesLE bs

/-- The 20-byte buffer built by `App::send_motion_event` (server.rs:107-114):
`buf[0..4] = time.to_ne_bytes(); buf[4..12] = x.to_ne_bytes();
buf[12..20] = y.to_ne_bytes()`. `xBits`/`yBits` are the IEEE-754 bit
patterns of the `f64` arguments. -/
def sendMotionEventBuf (time xBits yBits : Nat) : List Nat :=
  toNeBytes32 time ++ toNeBytes64 xBits ++ toNeBytes64 yBits

/-- Modelled from the spec: the receiving peer is not part of `src/`
(only the server binary is); §6 defines the wire format, so decoding reads
bytes 0..4 as `time`, 4..12 as `dx`, 12..20 as `dy`, little/native-endian,
and rejects frames that are not exactly 20 bytes. -/
def decodeFrame (bs : List Nat) : Option (Nat × Nat × Nat) :=
  if bs.length = 20 then
    some (fromNeBytesLE (bs.take 4),
          fromNeBytesLE ((bs.drop 4).take 8),
          fromNeBytesLE (bs.drop 12))
  else none

/-- The mutable `App` struct (server.rs:26-40). Wayland proxy objects are
modelled by whether they are currently held (`Option<_>` ↦ `Bool`:
`true` = `Some(proxy)`), since the program only ever tests presence and
issues requests on them. `surfaceCoords` holds the f64 bit patterns of the
`(surface_x, surface_y)` pair. The UDP socket itself carries no state the
program reads, so it is not a field; sends appear in the effect trace. -/
structure AppState where
  running : Bool
  compositor : Bool
  buffer : Bool
  wmBase : Bool
  surface : Bool
  topLevel : Bool
  xdgSurface : Bool
  surfaceCoords : Nat × Nat
  pointerConstraints : Bool
  relPointerManager : Bool
  pointerLock : Bool
  relPointer : Bool
deriving DecidableEq, Repr

/-- Observable requests the dispatch handlers issue to the compositor or the
network (the side effects of the source's event callbacks). -/
inductive Effect where
  | bindReq (interface : String)
  | getPointerReq
  | getKeyboardReq
  | lockPointerReq
  | relPointerReq
  | destroyLock
  | destroyRelPointer
  | sendDatagram (frame : List Nat)
deriving DecidableEq, Repr

/-- Compositor events delivered to the dispatch loop. Floating-point payloads
are carried as IEEE-754 bit patterns. `relativeMotion` carries the
environment's verdict on the subsequent `UdpSocket::send_to` (`sendOk`),
since that outcome is decided by the network, not the program. -/
inductive Event where
  | globalAnnounce (interface : String)
  | seatCapabilities (hasPointer hasKeyboard : Bool)
  | pointerEnter (sxBits syBits : Nat)
  | keyboardKey (key keyState : Nat)
  | relativeMotion (utimeHi utimeLo dxBits dyBits : Nat) (sendOk : Bool)
  | toplevelClose
deriving DecidableEq, Repr

/-- The `App` value constructed in `main` (server.rs:56-70) before the
roundtrip: everything unbound, `running = true`, coords `(0.0, 0.0)`. -/
def initApp : AppState :=
  { running := true
    compositor := false
    buffer := false
    wmBase := false
    surface := false
    topLevel := false
    xdgSurface := false
    surfaceCoords := (0, 0)
    pointerConstraints := false
    relPointerManager := false
    pointerLock := false
    relPointer := false }

/-- `App::send_motion_event` (server.rs:107-116): build the 20-byte buffer
and `send_to(..).unwrap()` — a failed send panics. `time` is the `u32`
argument (the caller truncates with `as u32`). -/
def send_motion_event (sendOk : Bool) (time xBits yBits : Nat) :
    Outcome (List Effect) :=
  let buf := sendMotionEventBuf time xBits yBits
  if sendOk then .ok [Effect.sendDatagram buf] else .panicked

/-- `Dispatch<WlRegistry>` global handler (server.rs:129-186): bind a proxy
for each recognized interface, record it in the matching `App` field
(`wl_seat` is bound but not stored), ignore unknown interfaces. -/
def registryGlobalHandler (app : AppState) (interface : String) :
    AppState × List Effect :=
  if interface = "wl_compositor" then
    ({ app with compositor := true }, [Effect.bindReq interface])
  else if interface = "wl_shm" then
    ({ app with buffer := true }, [Effect.bindReq interface])
  else if interface = "wl_seat" then
    (app, [Effect.bindReq interface])
  else if interface = "xdg_wm_base" then
    ({ app with wmBase := true }, [Effect.bindReq interface])
  else if interface = "zwp_pointer_constraints_v1" then
    ({ app with pointerConstraints := true }, [Effect.bindReq interface])
  else if interface = "zwp_relative_pointer_manager_v1" then
    ({ app with relPointerManager := true }, [Effect.bindReq interface])
  else (app, [])

/-- `Dispatch<WlSeat>` capabilities handler (server.rs:320-330): whenever the
announced capability set contains Pointer, issue `get_pointer`; whenever it
contains Keyboard, issue `get_keyboard`. No state is consulted or changed. -/
def seatCapabilitiesHandler (app : AppState) (hasPointer hasKeyboard : Bool) :
    AppState × List Effect :=
  (app, (if hasPointer then [Effect.getPointerReq] else []) ++
        (if hasKeyboard then [Effect.getKeyboardReq] else []))

/-- `Dispatch<WlPointer>` Enter handler (server.rs:344-367): store the surface
coordinates; if no pointer lock is held, `pointer_constraints.unwrap()` and
`surface.unwrap()` (panic when unbound) then request `lock_pointer`; if no
relative-pointer channel is held, `rel_pointer_manager.unwrap()` (panic when
unbound) then request `get_relative_pointer`. -/
def pointerEnterHandler (app : AppState) (sxBits syBits : Nat) :
    Outcome (AppState × List Effect) :=
  let app := { app with surfaceCoords := (sxBits, syBits) }
  let afterLock : Outcome (AppState × List Effect) :=
    if app.pointerLock = false then
      if app.pointerConstraints = true ∧ app.surface = true then
        .ok ({ app with pointerLock := true }, [Effect.lockPointerReq])
      else .panicked
    else .ok (app, [])
  match afterLock with
  | .panicked => .panicked
  | .ok (app, effs) =>
    if app.relPointer = false then
      if app.relPointerManager = true then
        .ok ({ app with relPointer := true }, effs ++ [Effect.relPointerReq])
      else .panicked
    else .ok (app, effs)

/-- `Dispatch<WlKeyboard>` Key handler (server.rs:382-394): on key code 1
(ESC) — the press/release state of the event is not examined — destroy the
pointer lock if held and the relative-pointer channel if held; any other key
code does nothing. -/
def keyboardKeyHandler (app : AppState) (key keyState : Nat) :
    AppState × List Effect :=
  if key = 1 then
    let (app1, e1) :=
      if app.pointerLock = true then
        ({ app with pointerLock := false }, [Effect.destroyLock])
      else (app, [])
    let (app2, e2) :=
      if app1.relPointer = true then
        ({ app1 with relPointer := false }, [Effect.destroyRelPointer])
      else (app1, [])
    (app2, e1 ++ e2)
  else (app, [])

/-- `Dispatch<ZwpRelativePointerV1>` RelativeMotion handler (server.rs:449-459):
`time = ((utime_hi as u64) << 32 | utime_lo as u64) / 1000`, then
`send_motion_event(time as u32, dx_unaccel, dy_unaccel)` — unconditionally,
with no check of the lock state. -/
def relMotionHandler (app : AppState)
    (utimeHi utimeLo dxBits dyBits : Nat) (sendOk : Bool) :
    Outcome (AppState × List Effect) :=
  let time := ((utimeHi <<< 32) ||| utimeLo) / 1000
  match send_motion_event sendOk (time % 2 ^ 32) dxBits dyBits with
  | .panicked => .panicked
  | .ok effs => .ok (app, effs)

/-- `Dispatch<XdgToplevel>` Close handler (server.rs:305-307). -/
def toplevelCloseHandler (app : AppState) : AppState × List Effect :=
  ({ app with running := false }, [])

/-- One dispatch step: route an event to its handler. -/
def step (app : AppState) : Event → Outcome (AppState × List Effect)
  | .globalAnnounce i => .ok (registryGlobalHandler app i)
  | .seatCapabilities p k => .ok (seatCapabilitiesHandler app p k)
  | .pointerEnter sx sy => pointerEnterHandler app sx sy
  | .keyboardKey key st => .ok (keyboardKeyHandler app key st)
  | .relativeMotion hi lo dx dy ok => relMotionHandler app hi lo dx dy ok
  | .toplevelClose => .ok (toplevelCloseHandler app)

/-- Process a sequence of events (the dispatch loop), accumulating the effect
trace; a panic anywhere aborts the whole run. -/
def run (app : AppState) : List Event → Outcome (AppState × List Effect)
  | [] => .ok (app, [])
  | e :: es =>
    match step app e with
    | .panicked => .panicked
    | .ok (app', effs) =>
      match run app' es with
      | .panicked => .panicked
      | .ok (app'', effs') => .ok (app'', effs ++ effs')

/-- Surface creation in `main` after the roundtrip (server.rs:76-85):
`app.compositor.as_ref().unwrap()` (panic when unbound), `create_surface`;
`app.wm_base.as_ref().unwrap()` (panic when unbound), `get_xdg_surface`,
`get_toplevel`, `set_title`, `commit`. -/
def setupSurface (app : AppState) : Outcome AppState :=
  if app.compositor = true then
    let app := { app with surface := true }
    if app.wmBase = true then
      .ok { app with xdgSurface := true, topLevel := true }
    else .panicked
  else .panicked

/-- Count occurrences of one effect in a trace. -/
def countEff (t : Effect) : List Effect → Nat
  | [] => 0
  | e :: es => (if e = t then 1 else 0) + countEff t es

/-- Number of seat-capabilities events announcing the pointer capability. -/
def countPointerCapEvents : List Event → Nat
  | [] => 0
  | .seatCapabilities true _ :: es => 1 + countPointerCapEvents es
  | _ :: es => countPointerCapEvents es

/-- Number of seat-capabilities events announcing the keyboard capability. -/
def countKeyboardCapEvents : List Event → Nat
  | [] => 0
  | .seatCapabilities _ true :: es => 1 + countKeyboardCapEvents es
  | _ :: es => countKeyboardCapEvents es

/-- A state as after a successful bootstrap and roundtrip: surface created
and the two capture-related managers bound, capture controller `Free`
(test fixture for concrete runs). -/
def readyApp : AppState :=
  { initApp with surface := true, pointerConstraints := true,
                 relPointerManager := true }

/-- `readyApp` after a successful pointer-enter: `Locked`, both the pointer
lock and the relative-motion channel held (test fixture). -/
def lockedApp : AppState :=
  { readyApp with pointerLock := true, relPointer := true }

theorem shiftOr_eq (hi lo : Nat) (hlo : lo < 2 ^ 32) :
    (hi <<< 32) ||| lo = hi * 2 ^ 32 + lo := by
  rw [Nat.shiftLeft_eq, Nat.mul_comm hi (2 ^ 32)]
  exact (Nat.mul_add_lt_is_or hlo hi).symm

theorem countEff_append (t : Effect) (l₁ l₂ : List Effect) :
    countEff t (l₁ ++ l₂) = countEff t l₁ + countEff t l₂ := by
  induction l₁ with
  | nil => simp [countEff]
  | cons e es ih => simp [countEff, ih]; omega

/-- C1: encoding a `(time, dx, dy)` triple with `send_motion_event`'s buffer
construction yields exactly 20 bytes — time in bytes 0..4, dx in bytes 4..12,
dy in bytes 12..20, native (little) endian — and decoding that frame returns
the same time and the bit-identical dx and dy (bit patterns, hence including
NaN and Infinity). -/
theorem frame_encode_decode_roundtrip (time xBits yBits : Nat)
    (ht : time < 2 ^ 32) (hx : xBits < 2 ^ 64) (hy : yBits < 2 ^ 64) :
    (sendMotionEventBuf time xBits yBits).length = 20 ∧
    (sendMotionEventBuf time xBits yBits).take 4 = toNeBytes32 time ∧
    ((sendMotionEventBuf time xBits yBits).drop 4).take 8 = toNeBytes64 xBits ∧
    (sendMotionEventBuf time xBits yBits).drop 12 = toNeBytes64 yBits ∧
    decodeFrame (sendMotionEventBuf time xBits yBits) =
      some (time, xBits, yBits) := by
  refine ⟨?_, ?_, ?_, ?_, ?_⟩ <;>
    simp [sendMotionEventBuf, toNeBytes32, toNeBytes64, decodeFrame,
          fromNeBytesLE] <;>
    omega

/-- Witness for C1 at time 4000, dx = the canonical quiet-NaN bit pattern
`0x7FF8000000000000`, dy = the +Infinity bit pattern `0x7FF0000000000000`. -/
theorem frame_encode_decode_roundtrip_witness :
    ((4000 : Nat) < 2 ^ 32 ∧ (0x7FF8000000000000 : Nat) < 2 ^ 64 ∧
      (0x7FF0000000000000 : Nat) < 2 ^ 64) ∧
    ((sendMotionEventBuf 4000 0x7FF8000000000000 0x7FF0000000000000).length = 20 ∧
     (sendMotionEventBuf 4000 0x7FF8000000000000 0x7FF0000000000000).take 4 =
       toNeBytes32 4000 ∧
     ((sendMotionEventBuf 4000 0x7FF8000000000000 0x7FF0000000000000).drop 4).take 8 =
       toNeBytes64 0x7FF8000000000000 ∧
     (sendMotionEventBuf 4000 0x7FF8000000000000 0x7FF0000000000000).drop 12 =
       toNeBytes64 0x7FF0000000000000 ∧
     decodeFrame (sendMotionEventBuf 4000 0x7FF8000000000000 0x7FF0000000000000) =
       some (4000, 0x7FF8000000000000, 0x7FF0000000000000)) :=
  ⟨by decide,
   frame_encode_decode_roundtrip 4000 0x7FF8000000000000 0x7FF0000000000000
     (by decide) (by decide) (by decide)⟩

/-- C2: a relative-motion event with `u32` halves `utime_hi`/`utime_lo` is
relayed with time `((utime_hi << 32) | utime_lo) / 1000` truncated to 32
bits and the unaccelerated displacement pair; in particular for
`utime_hi = 0`, `utime_lo = 5000000`, `dx = 1.5` (bits `0x3FF8000000000000`),
`dy = -2.25` (bits `0xC002000000000000`) the datagram is bytes 0-3 encoding
5000 little-endian, bytes 4-11 the IEEE-754 bits of 1.5, bytes 12-19 the
IEEE-754 bits of -2.25. -/
theorem motion_time_conversion (app : AppState) (hi lo dxBits dyBits : Nat)
    (hhi : hi < 2 ^ 32) (hlo : lo < 2 ^ 32) :
    step app (.relativeMotion hi lo dxBits dyBits true) =
      .ok (app, [Effect.sendDatagram
        (sendMotionEventBuf (((hi * 2 ^ 32 + lo) / 1000) % 2 ^ 32)
          dxBits dyBits)]) ∧
    step app (.relativeMotion 0 5000000 0x3FF8000000000000 0xC002000000000000 true) =
      .ok (app, [Effect.sendDatagram
        [136, 19, 0, 0,
         0, 0, 0, 0, 0, 0, 248, 63,
         0, 0, 0, 0, 0, 0, 2, 192]]) := by
  constructor
  · simp [step, relMotionHandler, send_motion_event, shiftOr_eq hi lo hlo]
  · simp [step, relMotionHandler, send_motion_event, sendMotionEventBuf,
          toNeBytes32, toNeBytes64]

/-- Witness for C2 at the spec's scenario inputs. -/
theorem motion_time_conversion_witness :
    ((0 : Nat) < 2 ^ 32 ∧ (5000000 : Nat) < 2 ^ 32) ∧
    (step readyApp (.relativeMotion 0 5000000 0x3FF8000000000000 0xC002000000000000 true) =
      .ok (readyApp, [Effect.sendDatagram
        (sendMotionEventBuf (((0 * 2 ^ 32 + 5000000) / 1000) % 2 ^ 32)
          0x3FF8000000000000 0xC002000000000000)]) ∧
     step readyApp (.relativeMotion 0 5000000 0x3FF8000000000000 0xC002000000000000 true) =
      .ok (readyApp, [Effect.sendDatagram
        [136, 19, 0, 0,
         0, 0, 0, 0, 0, 0, 248, 63,
         0, 0, 0, 0, 0, 0, 2, 192]])) :=
  ⟨by decide,
   motion_time_conversion readyApp 0 5000000 0x3FF8000000000000
     0xC002000000000000 (by decide) (by decide)⟩

theorem step_lock_conservation (app : AppState) (e : Event) (app' : AppState)
    (effs : List Effect) (h : step app e = .ok (app', effs)) :
    countEff .lockPointerReq effs + (if app.pointerLock then 1 else 0) =
      countEff .destroyLock effs + (if app'.pointerLock then 1 else 0) ∧
    countEff .relPointerReq effs + (if app.relPointer then 1 else 0) =
      countEff .destroyRelPointer effs + (if app'.relPointer then 1 else 0) ∧
    (app.pointerLock = app.relPointer → app'.pointerLock = app'.relPointer) := by
  cases e with
  | globalAnnounce i =>
    simp only [step, registryGlobalHandler, Outcome.ok.injEq] at h
    split_ifs at h <;>
      (obtain ⟨rfl, rfl⟩ := Prod.mk.injEq .. ▸ h; simp_all [countEff])
  | seatCapabilities p k =>
    simp only [step, seatCapabilitiesHandler, Outcome.ok.injEq] at h
    obtain ⟨rfl, rfl⟩ := Prod.mk.injEq .. ▸ h
    cases p <;> cases k <;> simp [countEff, countEff_append]
  | pointerEnter sx sy =>
    simp only [step, pointerEnterHandler] at h
    cases hpl : app.pointerLock <;> cases hrp : app.relPointer <;>
      cases hpc : app.pointerConstraints <;> cases hsf : app.surface <;>
      cases hrm : app.relPointerManager <;>
      simp_all [countEff] <;>
      (obtain ⟨rfl, rfl⟩ := h; simp [countEff])
  | keyboardKey key st =>
    simp only [step, keyboardKeyHandler, Outcome.ok.injEq] at h
    split_ifs at h <;>
      (obtain ⟨rfl, rfl⟩ := Prod.mk.injEq .. ▸ h; simp_all [countEff, countEff_append])
  | relativeMotion hi lo dx dy ok =>
    simp only [step, relMotionHandler, send_motion_event] at h
    split_ifs at h <;> simp_all [Outcome.ok.injEq, countEff]
    obtain ⟨rfl, rfl⟩ := h
    simp [countEff]
  | toplevelClose =>
    simp only [step, toplevelCloseHandler, Outcome.ok.injEq] at h
    obtain ⟨rfl, rfl⟩ := Prod.mk.injEq .. ▸ h
    simp [countEff]

theorem run_lock_conservation :
    ∀ (es : List Event) (app app' : AppState) (effs : List Effect),
    run app es = .ok (app', effs) →
    countEff .lockPointerReq effs + (if app.pointerLock then 1 else 0) =
      countEff .destroyLock effs + (if app'.pointerLock then 1 else 0) ∧
    countEff .relPointerReq effs + (if app.relPointer then 1 else 0) =
      countEff .destroyRelPointer effs + (if app'.relPointer then 1 else 0) ∧
    (app.pointerLock = app.relPointer → app'.pointerLock = app'.relPointer)
  | [], app, app', effs, h => by
    simp only [run, Outcome.ok.injEq] at h
    obtain ⟨rfl, rfl⟩ := Prod.mk.injEq .. ▸ h
    simp [countEff]
  | e :: es, app, app', effs, h => by
    simp only [run] at h
    cases h1 : step app e with
    | panicked => rw [h1] at h; exact absurd h (by simp)
    | ok p =>
      obtain ⟨app1, effs1⟩ := p
      rw [h1] at h
      dsimp only at h
      cases h2 : run app1 es with
      | panicked => rw [h2] at h; exact absurd h (by simp)
      | ok q =>
        obtain ⟨app2, effs2⟩ := q
        rw [h2] at h
        dsimp only at h
        simp only [Outcome.ok.injEq] at h
        obtain ⟨rfl, rfl⟩ := Prod.mk.injEq .. ▸ h
        obtain ⟨s1, s2, s3⟩ := step_lock_conservation app e app1 effs1 h1
        obtain ⟨r1, r2, r3⟩ := run_lock_conservation es app1 app2 effs2 h2
        refine ⟨?_, ?_, fun hiff => r3 (s3 hiff)⟩ <;>
          simp only [countEff_append] <;> omega

/-- Claim C3: from any Free state (in particular the initial one), processing
any event sequence maintains: lock and channel exist together (lock iff
channel), the number of lock (channel) acquisition requests exceeds the
number of destroys by exactly 0 or 1 — so at most one lock and at most one
channel exist — and a pointer-enter while Locked only updates the stored
surface coordinates, issuing no second acquisition request. -/
theorem capture_controller_invariant (es : List Event) (s app' : AppState)
    (effs : List Effect)
    (hl : s.pointerLock = false) (hr : s.relPointer = false)
    (h : run s es = .ok (app', effs)) :
    app'.pointerLock = app'.relPointer ∧
    countEff .lockPointerReq effs =
      countEff .destroyLock effs + (if app'.pointerLock then 1 else 0) ∧
    countEff .relPointerReq effs =
      countEff .destroyRelPointer effs + (if app'.relPointer then 1 else 0) ∧
    countEff .lockPointerReq effs ≤ countEff .destroyLock effs + 1 ∧
    countEff .relPointerReq effs ≤ countEff .destroyRelPointer effs + 1 ∧
    (app'.pointerLock = true → ∀ sx sy : Nat,
      step app' (.pointerEnter sx sy) =
        .ok ({ app' with surfaceCoords := (sx, sy) }, [])) := by
  obtain ⟨c1, c2, c3⟩ := run_lock_conservation es s app' effs h
  rw [hl] at c1
  rw [hr] at c2
  simp only [Bool.false_eq_true, if_false, Nat.add_zero] at c1 c2
  have hiff : app'.pointerLock = app'.relPointer := c3 (hl.trans hr.symm)
  refine ⟨hiff, c1, c2, ?_, ?_, fun hpl sx sy => ?_⟩
  · rw [c1]; split_ifs <;> omega
  · rw [c2]; split_ifs <;> omega
  · have hrp : app'.relPointer = true := hiff ▸ hpl
    simp [step, pointerEnterHandler, hpl, hrp]

/-- Final state of the concrete run used to witness claim C3. -/
def demoFinal : AppState := { readyApp with surfaceCoords := (5, 6) }

/-- Effect trace of the concrete run used to witness claim C3. -/
def demoEffs : List Effect :=
  [.lockPointerReq, .relPointerReq, .destroyLock, .destroyRelPointer]

/-- Witness for C3: enter, enter again, then ESC, from the ready Free state. -/
theorem capture_controller_invariant_witness :
    demoFinal.pointerLock = demoFinal.relPointer ∧
    countEff .lockPointerReq demoEffs =
      countEff .destroyLock demoEffs + (if demoFinal.pointerLock then 1 else 0) ∧
    countEff .relPointerReq demoEffs =
      countEff .destroyRelPointer demoEffs +
        (if demoFinal.relPointer then 1 else 0) ∧
    countEff .lockPointerReq demoEffs ≤ countEff .destroyLock demoEffs + 1 ∧
    countEff .relPointerReq demoEffs ≤ countEff .destroyRelPointer demoEffs + 1 ∧
    (demoFinal.pointerLock = true → ∀ sx sy : Nat,
      step demoFinal (.pointerEnter sx sy) =
        .ok ({ demoFinal with surfaceCoords := (sx, sy) }, [])) :=
  capture_controller_invariant
    [.pointerEnter 3 4, .pointerEnter 5 6, .keyboardKey 1 0]
    readyApp demoFinal demoEffs rfl rfl (by decide)

/-- Claim C4: a key event (any key code, in particular the release key)
processed while the controller is Free — no lock and no channel held —
returns the state unchanged and issues no destroy (nor any other) request. -/
theorem release_while_free_noop (app : AppState) (key keyState : Nat)
    (hl : app.pointerLock = false) (hr : app.relPointer = false) :
    step app (.keyboardKey key keyState) = .ok (app, []) := by
  by_cases hk : key = 1 <;> simp [step, keyboardKeyHandler, hl, hr, hk]

/-- Witness for C4: ESC while Free in the initial state. -/
theorem release_while_free_noop_witness :
    step initApp (.keyboardKey 1 0) = .ok (initApp, []) :=
  release_while_free_noop initApp 1 0 rfl rfl

/-- Counterexample to claim C5: from the initial state — controller Free,
no lock and no channel — a relative-motion event is relayed anyway: the
handler has no lock-state guard, so a 20-byte datagram is sent while Free. -/
theorem datagram_sent_while_free_cex :
    initApp.pointerLock = false ∧ initApp.relPointer = false ∧
    run initApp [.relativeMotion 0 5000000 0 0 true] =
      .ok (initApp, [Effect.sendDatagram (sendMotionEventBuf 5000 0 0)]) := by
  decide

/-- Claim C5 (amended): the relative-motion handler relays unconditionally —
even while the controller is Free (lock and channel both absent) the sample
is encoded and sent; the handler does not crash when the send succeeds. -/
theorem motion_relayed_regardless_of_lock (app : AppState)
    (hi lo dxBits dyBits : Nat)
    (hl : app.pointerLock = false) (hr : app.relPointer = false) :
    step app (.relativeMotion hi lo dxBits dyBits true) =
      .ok (app, [Effect.sendDatagram
        (sendMotionEventBuf ((((hi <<< 32) ||| lo) / 1000) % 2 ^ 32)
          dxBits dyBits)]) := by
  simp [step, relMotionHandler, send_motion_event]

/-- Witness for the amended C5 at the initial (Free) state. -/
theorem motion_relayed_regardless_of_lock_witness :
    (initApp.pointerLock = false ∧ initApp.relPointer = false) ∧
    step initApp (.relativeMotion 0 2000 0 0 true) =
      .ok (initApp, [Effect.sendDatagram
        (sendMotionEventBuf ((((0 <<< 32) ||| 2000) / 1000) % 2 ^ 32) 0 0)]) :=
  ⟨⟨rfl, rfl⟩, motion_relayed_regardless_of_lock initApp 0 2000 0 0 rfl rfl⟩

/-- Counterexample to claim C6: a pointer-enter delivered in the initial
state — controller Free, pointer-constraint and relative-pointer managers
both unbound — is not silently ignored: `pointer_constraints.as_ref().unwrap()`
panics. -/
theorem enter_unbound_managers_cex :
    initApp.pointerConstraints = false ∧ initApp.relPointerManager = false ∧
    initApp.pointerLock = false ∧
    step initApp (.pointerEnter 0 0) = .panicked := by decide

/-- Claim C6 (amended): a pointer-enter processed while no lock is held and
the pointer-constraint manager is unbound panics (unchecked unwrap) instead
of being silently ignored; likewise, if no channel is held and the
relative-pointer manager is unbound (with a lock already held, so the first
stage is skipped), the handler panics on the second unwrap. -/
theorem enter_unbound_managers_panics (app : AppState) (sx sy : Nat) :
    (app.pointerLock = false → app.pointerConstraints = false →
      step app (.pointerEnter sx sy) = .panicked) ∧
    (app.pointerLock = true → app.relPointer = false →
      app.relPointerManager = false →
      step app (.pointerEnter sx sy) = .panicked) := by
  constructor
  · intro hl hc
    simp [step, pointerEnterHandler, hl, hc]
  · intro hl hr hm
    simp [step, pointerEnterHandler, hl, hr, hm]

/-- Witness for the amended C6 at the initial state. -/
theorem enter_unbound_managers_panics_witness :
    (initApp.pointerLock = false ∧ initApp.pointerConstraints = false) ∧
    step initApp (.pointerEnter 0 0) = .panicked :=
  ⟨⟨rfl, rfl⟩, (enter_unbound_managers_panics initApp 0 0).1 rfl rfl⟩

/-- Counterexample to claim C7: with the controller Locked, a failing
datagram send is fatal — `send_to(..).unwrap()` panics — rather than a
non-fatal warning. -/
theorem send_failure_panics_cex :
    lockedApp.pointerLock = true ∧ lockedApp.relPointer = true ∧
    step lockedApp (.relativeMotion 0 1000000 0 0 false) = .panicked := by
  decide

/-- Claim C7 (amended): if the datagram send fails the program panics
(`unwrap` on the send result); if it succeeds, no application state changes —
in particular `pointer_lock` and `rel_pointer` are unchanged — so the next
sample is attempted independently. -/
theorem send_failure_panics_success_preserves_state
    (app : AppState) (hi lo dxBits dyBits : Nat) :
    step app (.relativeMotion hi lo dxBits dyBits false) = .panicked ∧
    ∃ effs, step app (.relativeMotion hi lo dxBits dyBits true) =
      .ok (app, effs) := by
  constructor
  · simp [step, relMotionHandler, send_motion_event]
  · exact ⟨[Effect.sendDatagram
      (sendMotionEventBuf ((((hi <<< 32) ||| lo) / 1000) % 2 ^ 32)
        dxBits dyBits)],
     by simp [step, relMotionHandler, send_motion_event]⟩

theorem step_seat_requests (app : AppState) (e : Event) (app' : AppState)
    (effs : List Effect) (h : step app e = .ok (app', effs)) :
    countEff .getPointerReq effs = countPointerCapEvents [e] ∧
    countEff .getKeyboardReq effs = countKeyboardCapEvents [e] := by
  cases e with
  | globalAnnounce i =>
    simp only [step, registryGlobalHandler, Outcome.ok.injEq] at h
    split_ifs at h <;>
      (obtain ⟨rfl, rfl⟩ := Prod.mk.injEq .. ▸ h;
       simp [countEff, countPointerCapEvents, countKeyboardCapEvents])
  | seatCapabilities p k =>
    simp only [step, seatCapabilitiesHandler, Outcome.ok.injEq] at h
    obtain ⟨rfl, rfl⟩ := Prod.mk.injEq .. ▸ h
    cases p <;> cases k <;>
      simp [countEff, countEff_append, countPointerCapEvents,
            countKeyboardCapEvents]
  | pointerEnter sx sy =>
    simp only [step, pointerEnterHandler] at h
    cases hpl : app.pointerLock <;> cases hrp : app.relPointer <;>
      cases hpc : app.pointerConstraints <;> cases hsf : app.surface <;>
      cases hrm : app.relPointerManager <;>
      simp_all [countEff, countPointerCapEvents, countKeyboardCapEvents] <;>
      (obtain ⟨rfl, rfl⟩ := h;
       simp [countEff, countPointerCapEvents, countKeyboardCapEvents])
  | keyboardKey key st =>
    simp only [step, keyboardKeyHandler, Outcome.ok.injEq] at h
    split_ifs at h <;>
      (obtain ⟨rfl, rfl⟩ := Prod.mk.injEq .. ▸ h;
       simp_all [countEff, countEff_append, countPointerCapEvents,
                 countKeyboardCapEvents])
  | relativeMotion hi lo dx dy ok =>
    simp only [step, relMotionHandler, send_motion_event] at h
    split_ifs at h <;>
      simp_all [countEff, countPointerCapEvents, countKeyboardCapEvents]
    obtain ⟨rfl, rfl⟩ := h
    simp [countEff, countPointerCapEvents, countKeyboardCapEvents]
  | toplevelClose =>
    simp only [step, toplevelCloseHandler, Outcome.ok.injEq] at h
    obtain ⟨rfl, rfl⟩ := Prod.mk.injEq .. ▸ h
    simp [countEff, countPointerCapEvents, countKeyboardCapEvents]

theorem countPointerCapEvents_cons (e : Event) (es : List Event) :
    countPointerCapEvents (e :: es) =
      countPointerCapEvents [e] + countPointerCapEvents es := by
  cases e with
  | seatCapabilities p k =>
    cases p <;> simp [countPointerCapEvents]
  | globalAnnounce i => simp [countPointerCapEvents]
  | pointerEnter sx sy => simp [countPointerCapEvents]
  | keyboardKey key st => simp [countPointerCapEvents]
  | relativeMotion hi lo dx dy ok => simp [countPointerCapEvents]
  | toplevelClose => simp [countPointerCapEvents]

theorem countKeyboardCapEvents_cons (e : Event) (es : List Event) :
    countKeyboardCapEvents (e :: es) =
      countKeyboardCapEvents [e] + countKeyboardCapEvents es := by
  cases e with
  | seatCapabilities p k =>
    cases k <;> simp [countKeyboardCapEvents]
  | globalAnnounce i => simp [countKeyboardCapEvents]
  | pointerEnter sx sy => simp [countKeyboardCapEvents]
  | keyboardKey key st => simp [countKeyboardCapEvents]
  | relativeMotion hi lo dx dy ok => simp [countKeyboardCapEvents]
  | toplevelClose => simp [countKeyboardCapEvents]

theorem run_seat_requests :
    ∀ (es : List Event) (app app' : AppState) (effs : List Effect),
    run app es = .ok (app', effs) →
    countEff .getPointerReq effs = countPointerCapEvents es ∧
    countEff .getKeyboardReq effs = countKeyboardCapEvents es
  | [], app, app', effs, h => by
    simp only [run, Outcome.ok.injEq] at h
    obtain ⟨rfl, rfl⟩ := Prod.mk.injEq .. ▸ h
    simp [countEff, countPointerCapEvents, countKeyboardCapEvents]
  | e :: es, app, app', effs, h => by
    simp only [run] at h
    cases h1 : step app e with
    | panicked => rw [h1] at h; exact absurd h (by simp)
    | ok p =>
      obtain ⟨app1, effs1⟩ := p
      rw [h1] at h
      dsimp only at h
      cases h2 : run app1 es with
      | panicked => rw [h2] at h; exact absurd h (by simp)
      | ok q =>
        obtain ⟨app2, effs2⟩ := q
        rw [h2] at h
        dsimp only at h
        simp only [Outcome.ok.injEq] at h
        obtain ⟨rfl, rfl⟩ := Prod.mk.injEq .. ▸ h
        obtain ⟨s1, s2⟩ := step_seat_requests app e app1 effs1 h1
        obtain ⟨r1, r2⟩ := run_seat_requests es app1 app2 effs2 h2
        rw [countPointerCapEvents_cons, countKeyboardCapEvents_cons]
        constructor <;> simp only [countEff_append] <;> omega

/-- Claim C8 (amended): every seat-capabilities notification whose capability
set contains the pointer (resp. keyboard) capability issues one `get_pointer`
(resp. `get_keyboard`) request — the handler keeps no record of an
already-acquired device, so repeated announcements issue additional requests:
over any run, the number of requests equals the number of announcing events,
not one. -/
theorem seat_requests_per_announcement (es : List Event)
    (app app' : AppState) (effs : List Effect)
    (h : run app es = .ok (app', effs)) :
    countEff .getPointerReq effs = countPointerCapEvents es ∧
    countEff .getKeyboardReq effs = countKeyboardCapEvents es :=
  run_seat_requests es app app' effs h

/-- Witness for the amended C8: two pointer+keyboard announcements yield two
`get_pointer` and two `get_keyboard` requests. -/
theorem seat_requests_per_announcement_witness :
    countEff .getPointerReq
        [.getPointerReq, .getKeyboardReq, .getPointerReq, .getKeyboardReq] =
      countPointerCapEvents
        [.seatCapabilities true true, .seatCapabilities true true] ∧
    countEff .getKeyboardReq
        [.getPointerReq, .getKeyboardReq, .getPointerReq, .getKeyboardReq] =
      countKeyboardCapEvents
        [.seatCapabilities true true, .seatCapabilities true true] :=
  seat_requests_per_announcement
    [.seatCapabilities true true, .seatCapabilities true true]
    readyApp readyApp
    [.getPointerReq, .getKeyboardReq, .getPointerReq, .getKeyboardReq]
    (by decide)

/-- Counterexample to claim C8: a repeated capability announcement for an
already-announced pointer/keyboard is not a no-op — the second announcement
issues a second `get_pointer` and a second `get_keyboard` request. -/
theorem repeated_seat_caps_cex :
    run readyApp [.seatCapabilities true true, .seatCapabilities true true] =
      .ok (readyApp,
        [.getPointerReq, .getKeyboardReq, .getPointerReq, .getKeyboardReq]) ∧
    countEff .getPointerReq
      [.getPointerReq, .getKeyboardReq, .getPointerReq, .getKeyboardReq] = 2 := by
  decide

/-- Counterexample to claim C9: with `wl_compositor` unbound after the
round-trip, surface creation panics on `app.compositor.as_ref().unwrap()` —
there is no descriptive configuration-error path. -/
theorem missing_compositor_unwrap_cex :
    initApp.compositor = false ∧ setupSurface initApp = .panicked := by decide

/-- Claim C9 (amended): if the surface-factory (`wl_compositor`) or the
window-shell (`xdg_wm_base`) capability was not bound after the initial
round-trip, the program panics via an unchecked `unwrap` during surface
creation rather than failing with a descriptive configuration error; with
both bound, surface creation succeeds. -/
theorem setup_surface_unwrap_behavior (app : AppState) :
    (app.compositor = false → setupSurface app = .panicked) ∧
    (app.wmBase = false → setupSurface app = .panicked) ∧
    (app.compositor = true → app.wmBase = true →
      setupSurface app =
        .ok ({ app with
               surface := true, xdgSurface := true, topLevel := true })) := by
  refine ⟨fun hc => ?_, fun hw => ?_, fun hc hw => ?_⟩
  · simp [setupSurface, hc]
  · cases hc : app.compositor <;> simp [setupSurface, hc, hw]
  · simp [setupSurface, hc, hw]

/-- Witness for the amended C9: panic with nothing bound, success with the
compositor and window shell bound. -/
theorem setup_surface_unwrap_behavior_witness :
    setupSurface initApp = .panicked ∧
    setupSurface { initApp with compositor := true, wmBase := true } =
      .ok ({ initApp with
             compositor := true, wmBase := true, surface := true,
             xdgSurface := true, topLevel := true }) :=
  ⟨(setup_surface_unwrap_behavior initApp).1 rfl,
   (setup_surface_unwrap_behavior
      { initApp with compositor := true, wmBase := true }).2.2 rfl rfl⟩

/-- Claim C10: the release trigger ignores the press/release state of key
events — the handler's result does not depend on it; a key event with code 1
(ESC) while Locked destroys both the lock and the channel regardless of that
state, and any other key code leaves the state unchanged with no requests. -/
theorem release_trigger_ignores_key_state (app : AppState) (key s t : Nat) :
    keyboardKeyHandler app key s = keyboardKeyHandler app key t ∧
    (key = 1 → app.pointerLock = true → app.relPointer = true →
      step app (.keyboardKey key s) =
        .ok ({ app with pointerLock := false, relPointer := false },
             [Effect.destroyLock, Effect.destroyRelPointer])) ∧
    (key ≠ 1 → step app (.keyboardKey key s) = .ok (app, [])) := by
  refine ⟨rfl, fun hk hl hr => ?_, fun hk => ?_⟩
  · subst hk; simp [step, keyboardKeyHandler, hl, hr]
  · simp [step, keyboardKeyHandler, hk]

/-- Witness for C10: ESC delivered as a key release (state 0) while Locked
still destroys the lock and the channel. -/
theorem release_trigger_ignores_key_state_witness :
    step lockedApp (.keyboardKey 1 0) =
      .ok ({ lockedApp with pointerLock := false, relPointer := false },
           [Effect.destroyLock, Effect.destroyRelPointer]) :=
  (release_trigger_ignores_key_state lockedApp 1 0 1).2.1 rfl rfl rfl

end LanMouse
